import Mathlib

/-!
Shallow embedding of the feedback-enhanced HTS classification resolver
(`src/classifier/feedback_enhanced_classifier.py`), the FAISS feedback
service (`src/services/faiss_feedback_service.py`) and the feedback
handler (`src/feedback_handler.py`).

Numeric similarity scores and confidences (Python floats) are modelled as
rationals (`ℚ`).  Timestamps are modelled as naturals.  External
collaborators (the primary classifier, the embedding service) are
parameters of the embedded functions.  Python exceptions are modelled with
`Except Unit`: a collaborator that can raise returns `Except`, and every
`try/except` block of the source is an explicit `match` on that value.
-/

/-- Python `str.lower()`: lowercase every character. -/
def pyLower (s : String) : String := ⟨s.data.map Char.toLower⟩

/-- Python `str.strip()`: drop leading and trailing whitespace. -/
def pyStrip (s : String) : String :=
  ⟨((s.data.dropWhile Char.isWhitespace).reverse.dropWhile Char.isWhitespace).reverse⟩

/-- The normalization `description.lower().strip()` applied by the exact
matchers in `check_exact_match` and `_check_exact_feedback_match`. -/
def normDesc (s : String) : String := pyStrip (pyLower s)

/-- Python `min` on two numbers. -/
def pyMin (a b : ℚ) : ℚ := if a ≤ b then a else b

/-- Python `max` on two numbers. -/
def pyMax (a b : ℚ) : ℚ := if a ≤ b then b else a

/-- A row of the feedback log: `(timestamp, description, predicted_code,
correct_code)`, as stored by `FeedbackHandler.add_feedback` and mirrored in
the FAISS `metadata_store`. -/
structure FeedbackEntry where
  description : String
  predicted_code : String
  correct_code : String
  timestamp : Nat
deriving DecidableEq, Repr

/-- A semantic match dictionary as built by
`_find_semantic_feedback_matches` / `search_similar_feedback`. -/
structure SemanticMatch where
  description : String
  predicted_code : String
  correct_code : String
  similarity_score : ℚ
  timestamp : Nat
  confidence : ℚ
deriving DecidableEq, Repr

/-- A classification result dictionary.  Keys that a given code path does
not set are modelled by the neutral values the rest of the code assumes
(`feedback_adjusted` absent = `false`, `learning_explanation` absent = `""`,
`similarity_score` absent = `0`). -/
structure ClassificationResult where
  hts_code : String
  description : String
  confidence : ℚ
  general_rate : String
  units : List String
  source : String
  match_type : String
  similarity_score : ℚ
  feedback_adjusted : Bool
  learning_explanation : String
deriving DecidableEq, Repr

/-- An entry of `data_loader.hts_data` with the fields read by
`_get_hts_info_for_code` (string-typed shapes). -/
structure HtsEntry where
  htsno : String
  description : String
  general_rate : String
  units : List String
deriving DecidableEq, Repr

/-- The dictionary returned by `_get_hts_info_for_code`. -/
structure HtsInfo where
  description : String
  general_rate : String
  units : List String
deriving DecidableEq, Repr

/-- The three similarity thresholds read from `Config` by the classifier
constructor. -/
structure ClassifierConfig where
  semantic_threshold : ℚ
  high_confidence_threshold : ℚ
  very_high_confidence_threshold : ℚ
deriving DecidableEq, Repr

/-- The `Config` defaults: `SEMANTIC_THRESHOLD = 0.50`,
`HIGH_CONFIDENCE_THRESHOLD = 0.70`, `VERY_HIGH_CONFIDENCE_THRESHOLD = 0.80`
(`src/config/settings.py`). -/
def defaultConfig : ClassifierConfig := ⟨1/2, 7/10, 4/5⟩

/-- The `confidence_level` argument of `_create_semantic_feedback_result`. -/
inductive ConfidenceLevel where
  | very_high
  | high
  | medium
  | fallback
deriving DecidableEq, Repr

/-- The predicate of the loop in `FaissFeedbackService.check_exact_match`:
the stored description matches the query after `.lower().strip()`
normalization, and the entry is a correction (`predicted_code !=
correct_code`). -/
def exactCorrectionPred (d : String) (e : FeedbackEntry) : Bool :=
  (normDesc e.description == normDesc d) && (e.predicted_code != e.correct_code)

/-- `FaissFeedbackService.check_exact_match`: walk the `metadata_store` in
insertion order and return the first entry whose normalized description
equals the normalized query and which is a correction; `None` otherwise. -/
def check_exact_match (metadata_store : List FeedbackEntry) (d : String) :
    Option FeedbackEntry :=
  metadata_store.find? (exactCorrectionPred d)

/-- The non-FAISS branch of
`FeedbackEnhancedClassifier._check_exact_feedback_match`: filter the cached
feedback rows to those whose normalized description equals the normalized
query (no correction filter) and take the last row (`.iloc[-1]`, the most
recent). -/
def exactMatchFallback (recent : List FeedbackEntry) (d : String) :
    Option FeedbackEntry :=
  (recent.filter (fun e => normDesc e.description == normDesc d)).getLast?

/-- `FeedbackEnhancedClassifier._check_exact_feedback_match`: try the FAISS
store first when a FAISS service is configured, otherwise (or when it
misses) fall back to the cached feedback data. -/
def checkExactFeedbackMatch (faissStore : Option (List FeedbackEntry))
    (recent : List FeedbackEntry) (d : String) : Option FeedbackEntry :=
  match faissStore with
  | some ms =>
    match check_exact_match ms d with
    | some e => some e
    | none => exactMatchFallback recent d
  | none => exactMatchFallback recent d

/-- `FeedbackEnhancedClassifier._calculate_semantic_confidence`:
`min(95, 70 + (similarity_score - semantic_threshold) * 100)`. -/
def calculateSemanticConfidence (semantic_threshold : ℚ)
    (similarity_score : ℚ) : ℚ :=
  pyMin 95 (70 + (similarity_score - semantic_threshold) * 100)

/-- `FeedbackEnhancedClassifier._get_hts_info_for_code`: first entry of
`hts_data` whose code starts with the first six characters of the query
code or equals it; a placeholder dictionary when none is found. -/
def getHtsInfoForCode (htsData : List HtsEntry) (hts_code : String) :
    HtsInfo :=
  let c := pyStrip hts_code
  match htsData.find? (fun e =>
      (pyStrip e.htsno).startsWith (String.mk (c.data.take 6))
        || pyStrip e.htsno == c) with
  | some e => ⟨pyStrip e.description, pyStrip e.general_rate, e.units⟩
  | none => ⟨"HTS Code " ++ c, "Contact for rate", []⟩

/-- `FeedbackEnhancedClassifier._create_exact_feedback_result`. -/
def createExactFeedbackResult (htsData : List HtsEntry)
    (exact_match : FeedbackEntry) : ClassificationResult :=
  let info := getHtsInfoForCode htsData exact_match.correct_code
  { hts_code := exact_match.correct_code
    description := info.description
    confidence := 95
    general_rate := info.general_rate
    units := info.units
    source := "feedback_correction"
    match_type := "exact_match"
    similarity_score := 1
    feedback_adjusted := false
    learning_explanation :=
      "This result comes from an exact feedback correction for this product." }

/-- `FeedbackEnhancedClassifier._create_semantic_feedback_result`: match
type and confidence depend on the confidence level; the remaining fields
come from the match and the HTS lookup. -/
def createSemanticFeedbackResult (htsData : List HtsEntry)
    (m : SemanticMatch) (level : ConfidenceLevel) : ClassificationResult :=
  let info := getHtsInfoForCode htsData m.correct_code
  let mt : String :=
    match level with
    | .very_high => "ai_perfect_match"
    | .high => "ai_smart_match"
    | .fallback => "ai_fallback_match"
    | .medium => "ai_similar_match"
  let conf : ℚ :=
    match level with
    | .very_high => pyMin 98 (m.confidence + 5)
    | .high => m.confidence
    | .fallback => pyMax 65 (m.confidence - 10)
    | .medium => pyMax 70 (m.confidence - 5)
  { hts_code := m.correct_code
    description := info.description
    confidence := conf
    general_rate := info.general_rate
    units := info.units
    source := "semantic_feedback"
    match_type := mt
    similarity_score := m.similarity_score
    feedback_adjusted := false
    learning_explanation := "AI match: " ++ String.mk (m.description.data.take 60) }

/-- `result['hts_code'][:2] if len(result['hts_code']) >= 2 else ''`. -/
def chapterOf (code : String) : String :=
  if code.data.length ≥ 2 then String.mk (code.data.take 2) else ""

/-- The per-result body of
`FeedbackEnhancedClassifier._apply_semantic_pattern_adjustments`: count the
semantic matches whose predicted chapter equals the result's chapter and
differs from their own correct chapter; when the count is positive, reduce
confidence by `min(30, count * 10 * avg_similarity)` floored at 10. -/
def adjustOneResult (semantic_matches : List SemanticMatch)
    (result : ClassificationResult) : ClassificationResult :=
  let result_chapter := chapterOf result.hts_code
  let corrections := semantic_matches.filter (fun m =>
    chapterOf m.predicted_code == result_chapter
      && chapterOf m.predicted_code != chapterOf m.correct_code)
  let correction_count := corrections.length
  let total_similarity := (corrections.map (·.similarity_score)).sum
  if correction_count > 0 then
    let avg_similarity := total_similarity / (correction_count : ℚ)
    let confidence_reduction :=
      pyMin 30 ((correction_count : ℚ) * 10 * avg_similarity)
    { result with
      confidence := pyMax 10 (result.confidence - confidence_reduction)
      feedback_adjusted := true
      learning_explanation :=
        "Confidence adjusted based on similar product correction(s)" }
  else
    result

/-- `FeedbackEnhancedClassifier._apply_semantic_pattern_adjustments`. -/
def applySemanticPatternAdjustments (base_results : List ClassificationResult)
    (semantic_matches : List SemanticMatch) : List ClassificationResult :=
  base_results.map (adjustOneResult semantic_matches)

/-- Stable insertion into a list sorted by descending `similarity_score`
(used to model the stable Python sort
`semantic_matches.sort(key=similarity_score, reverse=True)`). -/
def insertBySimilarityDesc (m : SemanticMatch) :
    List SemanticMatch → List SemanticMatch
  | [] => [m]
  | x :: xs =>
    if m.similarity_score < x.similarity_score then
      x :: insertBySimilarityDesc m xs
    else
      m :: x :: xs

/-- Stable sort by descending `similarity_score`. -/
def sortBySimilarityDesc (l : List SemanticMatch) : List SemanticMatch :=
  l.foldr insertBySimilarityDesc []

/-- `FeedbackEnhancedClassifier._find_semantic_feedback_matches_fallback`
given the cosine similarities computed by the external embedding service
(`sim e` is the similarity between the query embedding and the embedding of
feedback description `e`): keep rows at or above the semantic threshold
that are corrections, attach the derived confidence, and sort by
descending similarity. -/
def findSemanticFallbackMatches (semantic_threshold : ℚ)
    (sim : String → ℚ) (recent : List FeedbackEntry) : List SemanticMatch :=
  let ms := recent.filterMap (fun e =>
    let s := sim e.description
    if semantic_threshold ≤ s then
      if e.predicted_code ≠ e.correct_code then
        some { description := e.description
               predicted_code := e.predicted_code
               correct_code := e.correct_code
               similarity_score := s
               timestamp := e.timestamp
               confidence := calculateSemanticConfidence semantic_threshold s }
      else none
    else none)
  sortBySimilarityDesc ms

/-- `FeedbackEnhancedClassifier._get_recent_feedback_data`.  `cache` is the
stored snapshot for the cache key (if any), `cacheFresh` models
`datetime.now() - last_feedback_check < timedelta(minutes=cache_duration)`,
and `storeRead` is the outcome of reading from the feedback handler
(`none` models a raised exception, handled by the `except` branch that
returns an empty DataFrame). -/
def getRecentFeedbackData (cache : Option (List FeedbackEntry))
    (cacheFresh : Bool) (storeRead : Option (List FeedbackEntry)) :
    List FeedbackEntry :=
  match cache, cacheFresh with
  | some snapshot, true => snapshot
  | some _, false =>
    match storeRead with
    | some rows => rows
    | none => []
  | none, _ =>
    match storeRead with
    | some rows => rows
    | none => []

/-- State of `FeedbackHandler`: the CSV feedback log plus the FAISS
metadata store (`none` when no FAISS service is configured). -/
structure FeedbackHandlerState where
  store : List FeedbackEntry
  faissStore : Option (List FeedbackEntry)
deriving DecidableEq, Repr

/-- `FeedbackHandler.add_feedback`: append the new row to the feedback log,
then — whenever a FAISS service is configured — insert the same entry into
the FAISS index via `add_feedback_embedding` (the source performs this
insertion unconditionally). -/
def addFeedback (st : FeedbackHandlerState) (description predicted_code
    correct_code : String) (now : Nat) : FeedbackHandlerState :=
  let e : FeedbackEntry := ⟨description, predicted_code, correct_code, now⟩
  { store := st.store ++ [e]
    faissStore := st.faissStore.map (fun ms => ms ++ [e]) }

/-- STEP 3 of `FeedbackEnhancedClassifier.classify`: run the primary
classifier; on results, apply pattern adjustments with an empty match set
when learning is enabled, else return the results unchanged; on an empty
result, when learning is enabled make one final semantic lookup and return
a fallback-tier result from its best match, else return `[]`.  A raised
primary-classifier exception propagates to the enclosing handler. -/
def classifyStep3 (htsData : List HtsEntry)
    (semFind : String → List SemanticMatch)
    (prim : String → Nat → Except Unit (List ClassificationResult))
    (d : String) (top_k : Nat) (learn : Bool) :
    Except Unit (List ClassificationResult) :=
  match prim d top_k with
  | .error e => .error e
  | .ok [] =>
    if learn then
      match semFind d with
      | [] => .ok []
      | best :: _ => .ok [createSemanticFeedbackResult htsData best .fallback]
    else .ok []
  | .ok (r :: rs) =>
    if learn then
      .ok (applySemanticPatternAdjustments (r :: rs) [])
    else .ok (r :: rs)

/-- STEP 2 of `FeedbackEnhancedClassifier.classify` (reached only with
learning enabled): tiered branching on the best semantic match, falling
through to STEP 3 when there is no match or the best similarity is below
every threshold. -/
def classifyStep2 (cfg : ClassifierConfig) (htsData : List HtsEntry)
    (semFind : String → List SemanticMatch)
    (prim : String → Nat → Except Unit (List ClassificationResult))
    (d : String) (top_k : Nat) :
    Except Unit (List ClassificationResult) :=
  match semFind d with
  | [] => classifyStep3 htsData semFind prim d top_k true
  | best :: rest =>
    if cfg.very_high_confidence_threshold ≤ best.similarity_score then
      .ok [createSemanticFeedbackResult htsData best .very_high]
    else if cfg.high_confidence_threshold ≤ best.similarity_score then
      match prim d (top_k - 1) with
      | .error e => .error e
      | .ok [] => .ok [createSemanticFeedbackResult htsData best .high]
      | .ok (r :: rs) =>
        .ok (createSemanticFeedbackResult htsData best .high
              :: (r :: rs).take 2)
    else if cfg.semantic_threshold ≤ best.similarity_score then
      match prim d top_k with
      | .error e => .error e
      | .ok [] => .ok [createSemanticFeedbackResult htsData best .medium]
      | .ok (r :: rs) =>
        .ok (applySemanticPatternAdjustments (r :: rs) (best :: rest))
    else classifyStep3 htsData semFind prim d top_k true

/-- The body of the outer `try` of `FeedbackEnhancedClassifier.classify`:
STEP 1 (exact feedback match, learning only), then STEP 2, then STEP 3. -/
def classifyCore (cfg : ClassifierConfig) (htsData : List HtsEntry)
    (faissStore : Option (List FeedbackEntry)) (recent : List FeedbackEntry)
    (semFind : String → List SemanticMatch)
    (prim : String → Nat → Except Unit (List ClassificationResult))
    (d : String) (top_k : Nat) (learn : Bool) :
    Except Unit (List ClassificationResult) :=
  if learn then
    match checkExactFeedbackMatch faissStore recent d with
    | some m => .ok [createExactFeedbackResult htsData m]
    | none => classifyStep2 cfg htsData semFind prim d top_k
  else classifyStep3 htsData semFind prim d top_k false

/-- The `except` handler of `FeedbackEnhancedClassifier.classify`: fall
back to the base classifier, and to `[]` when that also raises. -/
def primaryFallback
    (prim : String → Nat → Except Unit (List ClassificationResult))
    (d : String) (top_k : Nat) : List ClassificationResult :=
  match prim d top_k with
  | .ok rs => rs
  | .error _ => []

/-- `FeedbackEnhancedClassifier.classify`: the priority state machine with
its outer exception handler.  The returned value is always `.ok` because
every exception of the body is caught. -/
def classify (cfg : ClassifierConfig) (htsData : List HtsEntry)
    (faissStore : Option (List FeedbackEntry)) (recent : List FeedbackEntry)
    (semFind : String → List SemanticMatch)
    (prim : String → Nat → Except Unit (List ClassificationResult))
    (d : String) (top_k : Nat) (learn : Bool) :
    Except Unit (List ClassificationResult) :=
  match classifyCore cfg htsData faissStore recent semFind prim d top_k learn with
  | .ok rs => .ok rs
  | .error _ => .ok (primaryFallback prim d top_k)

section
attribute [local semireducible] Rat.add Rat.mul Rat.inv Rat.sub

theorem mem_insertBySimilarityDesc {y m : SemanticMatch}
    {l : List SemanticMatch} :
    y ∈ insertBySimilarityDesc m l ↔ y = m ∨ y ∈ l := by
  induction l with
  | nil => simp [insertBySimilarityDesc]
  | cons x xs ih =>
    unfold insertBySimilarityDesc
    split
    · simp only [List.mem_cons, ih]
      tauto
    · simp only [List.mem_cons]

theorem mem_sortBySimilarityDesc {y : SemanticMatch} {l : List SemanticMatch} :
    y ∈ sortBySimilarityDesc l ↔ y ∈ l := by
  induction l with
  | nil => simp [sortBySimilarityDesc]
  | cons x xs ih =>
    simp only [sortBySimilarityDesc, List.foldr] at ih ⊢
    rw [mem_insertBySimilarityDesc, ih, List.mem_cons]

theorem pyMin_le_left (a b : ℚ) : pyMin a b ≤ a := by
  unfold pyMin; split <;> linarith

theorem pyMin_le_right (a b : ℚ) : pyMin a b ≤ b := by
  unfold pyMin; split <;> linarith

theorem le_pyMax_left (a b : ℚ) : a ≤ pyMax a b := by
  unfold pyMax; split <;> linarith

theorem le_pyMax_right (a b : ℚ) : b ≤ pyMax a b := by
  unfold pyMax; split <;> linarith

/-- C6: applying the pattern adjuster with an empty semantic-match set
returns every base result unchanged, in order. -/
theorem C6_pattern_adjuster_empty_identity (base : List ClassificationResult) :
    applySemanticPatternAdjustments base [] = base := by
  unfold applySemanticPatternAdjustments
  have h : ∀ r, adjustOneResult [] r = r := by
    intro r
    unfold adjustOneResult
    simp
  rw [funext h]
  exact List.map_id' base

/-- C5: every semantic match produced by the fallback semantic matcher
survives the similarity-threshold filter with
`confidence = min(95, 70 + (similarity_score - threshold) * 100)`; that
confidence is 70 exactly at the threshold and never exceeds 95; the
classifier's default threshold is 0.50. -/
theorem C5_semantic_confidence_formula (thr : ℚ) (sim : String → ℚ)
    (recent : List FeedbackEntry) (m : SemanticMatch)
    (hm : m ∈ findSemanticFallbackMatches thr sim recent) :
    m.confidence = pyMin 95 (70 + (m.similarity_score - thr) * 100)
    ∧ thr ≤ m.similarity_score
    ∧ calculateSemanticConfidence thr thr = 70
    ∧ m.confidence ≤ 95
    ∧ defaultConfig.semantic_threshold = 1/2 := by
  unfold findSemanticFallbackMatches at hm
  rw [mem_sortBySimilarityDesc] at hm
  obtain ⟨e, _, hfe⟩ := List.mem_filterMap.mp hm
  have hthr70 : calculateSemanticConfidence thr thr = 70 := by
    unfold calculateSemanticConfidence pyMin
    norm_num
  by_cases hs : thr ≤ sim e.description
  · rw [if_pos hs] at hfe
    by_cases hc : e.predicted_code ≠ e.correct_code
    · rw [if_pos hc] at hfe
      obtain rfl := Option.some.inj hfe
      refine ⟨rfl, hs, hthr70, pyMin_le_left _ _, rfl⟩
    · rw [if_neg hc] at hfe
      exact absurd hfe (by simp)
  · rw [if_neg hs] at hfe
    exact absurd hfe (by simp)

/-- Witness for C5 at a concrete feedback row and similarity. -/
theorem C5_witness :
    (⟨"copper pipe fitting", "7412", "7307", 3/5, 4, 80⟩ : SemanticMatch).confidence
        = pyMin 95 (70 + ((3:ℚ)/5 - 1/2) * 100)
    ∧ (1:ℚ)/2 ≤ 3/5
    ∧ calculateSemanticConfidence (1/2) (1/2) = 70
    ∧ (⟨"copper pipe fitting", "7412", "7307", 3/5, 4, 80⟩ : SemanticMatch).confidence ≤ 95
    ∧ defaultConfig.semantic_threshold = 1/2 :=
  C5_semantic_confidence_formula (1/2) (fun _ => 3/5)
    [⟨"copper pipe fitting", "7412", "7307", 4⟩]
    ⟨"copper pipe fitting", "7412", "7307", 3/5, 4, 80⟩ (by decide)

theorem pyMin_nonneg (a b : ℚ) (ha : 0 ≤ a) (hb : 0 ≤ b) : 0 ≤ pyMin a b := by
  unfold pyMin; split <;> linarith

theorem pyMax_reduction_bound (c red : ℚ) (hred : 0 ≤ red) :
    pyMax 10 (c - red) ≤ pyMax c 10 := by
  unfold pyMax; split_ifs <;> linarith

theorem adjustOneResult_confidence_bound (ms : List SemanticMatch)
    (hms : ∀ m ∈ ms, 0 ≤ m.similarity_score) (r : ClassificationResult) :
    (adjustOneResult ms r).confidence ≤ pyMax r.confidence 10 := by
  have hsum : ∀ p : SemanticMatch → Bool,
      0 ≤ ((ms.filter p).map (fun m => m.similarity_score)).sum := by
    intro p
    apply List.sum_nonneg
    intro x hx
    obtain ⟨m, hm, rfl⟩ := List.mem_map.mp hx
    exact hms m (List.mem_filter.mp hm).1
  simp only [adjustOneResult]
  split
  · apply pyMax_reduction_bound
    apply pyMin_nonneg _ _ (by norm_num)
    have h0 : (0:ℚ) ≤ ((ms.filter (fun m =>
        chapterOf m.predicted_code == chapterOf r.hts_code
          && chapterOf m.predicted_code != chapterOf m.correct_code)).map
            (fun m => m.similarity_score)).sum := hsum _
    positivity
  · exact le_pyMax_left _ _

/-- A primary result whose confidence is below the 10-point floor applied
by the pattern adjuster. -/
def lowConfidenceResult : ClassificationResult :=
  ⟨"4202.21.90", "Handbags", 5, "8%", [], "standard", "none", 0, false, ""⟩

/-- A historical correction away from chapter 42 at similarity 0.6. -/
def chapter42Correction : SemanticMatch :=
  ⟨"leather pouch", "4205.00.80", "6202.92.05", 3/5, 2, 80⟩

/-- C3 counterexample: on a base result with confidence 5 and one matching
chapter-level correction, the adjuster outputs confidence 10 — the 10-point
floor *raises* the confidence, so the adjustment is not always a penalty. -/
theorem C3_counterexample :
    (applySemanticPatternAdjustments [lowConfidenceResult]
        [chapter42Correction]).map (fun r => r.confidence) = [10]
    ∧ lowConfidenceResult.confidence = 5
    ∧ ¬ ((10:ℚ) ≤ 5) := by decide

/-- C3 amended: for semantic matches with nonnegative similarity scores,
each adjusted confidence is bounded by `max(original confidence, 10)`: the
adjuster never increases a confidence that is at least 10, and never
outputs more than 10 for one below 10. -/
theorem C3_amended_pattern_adjuster_bounded (base : List ClassificationResult)
    (ms : List SemanticMatch) (hms : ∀ m ∈ ms, 0 ≤ m.similarity_score) :
    ∀ p ∈ (applySemanticPatternAdjustments base ms).zip base,
      p.1.confidence ≤ pyMax p.2.confidence 10 := by
  induction base with
  | nil =>
    intro p hp
    simp [applySemanticPatternAdjustments] at hp
  | cons b bs ih =>
    intro p hp
    simp only [applySemanticPatternAdjustments, List.map_cons, List.zip_cons_cons,
      List.mem_cons] at hp
    rcases hp with rfl | hp
    · exact adjustOneResult_confidence_bound ms hms b
    · exact ih p hp

/-- Witness for the amended C3 at a concrete result and correction. -/
theorem C3_witness :
    (adjustOneResult [chapter42Correction] lowConfidenceResult).confidence
      ≤ pyMax lowConfidenceResult.confidence 10 :=
  C3_amended_pattern_adjuster_bounded [lowConfidenceResult]
    [chapter42Correction] (by decide)
    (adjustOneResult [chapter42Correction] lowConfidenceResult,
      lowConfidenceResult) (by decide)

/-- C4: with learning enabled, when the exact matcher misses and the best
semantic match is at or above the default very-high threshold 0.80,
`classify` returns exactly that one semantic result, with confidence
`min(98, match.confidence + 5)` (hence at most 98), match type
`ai_perfect_match`, and source `semantic_feedback`. -/
theorem C4_very_high_semantic_terminal (htsData : List HtsEntry)
    (faissStore : Option (List FeedbackEntry)) (recent : List FeedbackEntry)
    (semFind : String → List SemanticMatch)
    (prim : String → Nat → Except Unit (List ClassificationResult))
    (d : String) (top_k : Nat) (best : SemanticMatch)
    (rest : List SemanticMatch)
    (hexact : checkExactFeedbackMatch faissStore recent d = none)
    (hsem : semFind d = best :: rest)
    (hhigh : defaultConfig.very_high_confidence_threshold
        ≤ best.similarity_score) :
    classify defaultConfig htsData faissStore recent semFind prim d top_k true
      = .ok [createSemanticFeedbackResult htsData best .very_high]
    ∧ (createSemanticFeedbackResult htsData best .very_high).confidence
        = pyMin 98 (best.confidence + 5)
    ∧ (createSemanticFeedbackResult htsData best .very_high).confidence ≤ 98
    ∧ (createSemanticFeedbackResult htsData best .very_high).match_type
        = "ai_perfect_match"
    ∧ (createSemanticFeedbackResult htsData best .very_high).source
        = "semantic_feedback" := by
  have hcore : classifyCore defaultConfig htsData faissStore recent semFind
      prim d top_k true
      = .ok [createSemanticFeedbackResult htsData best .very_high] := by
    simp only [classifyCore, hexact, classifyStep2, hsem, if_true]
    rw [if_pos hhigh]
  refine ⟨by simp only [classify, hcore], rfl, ?_, rfl, rfl⟩
  exact pyMin_le_left _ _

/-- A stored correction at similarity 0.9 for the C4 witness. -/
def strongSemanticMatch : SemanticMatch :=
  ⟨"wool scarf large", "6214.20.00", "6117.10.60", 9/10, 6, 90⟩

/-- Witness for C4 at a concrete strong semantic match. -/
theorem C4_witness :
    classify defaultConfig [] none [] (fun _ => [strongSemanticMatch])
        (fun _ _ => .ok []) "wool scarf" 3 true
      = .ok [createSemanticFeedbackResult [] strongSemanticMatch .very_high]
    ∧ (createSemanticFeedbackResult [] strongSemanticMatch .very_high).confidence
        = pyMin 98 (strongSemanticMatch.confidence + 5)
    ∧ (createSemanticFeedbackResult [] strongSemanticMatch .very_high).confidence
        ≤ 98
    ∧ (createSemanticFeedbackResult [] strongSemanticMatch .very_high).match_type
        = "ai_perfect_match"
    ∧ (createSemanticFeedbackResult [] strongSemanticMatch .very_high).source
        = "semantic_feedback" :=
  C4_very_high_semantic_terminal [] none [] (fun _ => [strongSemanticMatch])
    (fun _ _ => .ok []) "wool scarf" 3 strongSemanticMatch [] rfl rfl (by decide)

/-- C10: with learning disabled, `classify` returns exactly the primary
classifier output (or `[]` when the primary classifier raises), and the
result is independent of the configuration, the HTS data, the FAISS store,
the cached feedback and the semantic matcher — feedback data cannot
influence it. -/
theorem C10_learning_disabled_noninterference (cfg₁ cfg₂ : ClassifierConfig)
    (htsData₁ htsData₂ : List HtsEntry)
    (faiss₁ faiss₂ : Option (List FeedbackEntry))
    (recent₁ recent₂ : List FeedbackEntry)
    (semFind₁ semFind₂ : String → List SemanticMatch)
    (prim : String → Nat → Except Unit (List ClassificationResult))
    (d : String) (top_k : Nat) :
    classify cfg₁ htsData₁ faiss₁ recent₁ semFind₁ prim d top_k false
      = .ok (primaryFallback prim d top_k)
    ∧ classify cfg₁ htsData₁ faiss₁ recent₁ semFind₁ prim d top_k false
      = classify cfg₂ htsData₂ faiss₂ recent₂ semFind₂ prim d top_k false := by
  have h : ∀ (cfg : ClassifierConfig) (htsData : List HtsEntry) faiss recent
      semFind, classify cfg htsData faiss recent semFind prim d top_k false
        = .ok (primaryFallback prim d top_k) := by
    intro cfg htsData faiss recent semFind
    unfold classify classifyCore classifyStep3 primaryFallback
    cases hp : prim d top_k with
    | error e => simp
    | ok rs => cases rs <;> simp
  exact ⟨h _ _ _ _ _, (h _ _ _ _ _).trans (h _ _ _ _ _).symm⟩

theorem exactMatchFallback_isSome_of_mem (recent : List FeedbackEntry)
    (d : String) (e : FeedbackEntry) (he : e ∈ recent)
    (hnorm : normDesc e.description = normDesc d) :
    (exactMatchFallback recent d).isSome = true := by
  unfold exactMatchFallback
  rw [List.getLast?_isSome]
  intro hcontra
  have hmem : e ∈ recent.filter
      (fun x => normDesc x.description == normDesc d) := by
    rw [List.mem_filter]
    exact ⟨he, by simp [hnorm]⟩
  rw [hcontra] at hmem
  simp at hmem

theorem checkExactFeedbackMatch_isSome
    (faissStore : Option (List FeedbackEntry)) (recent : List FeedbackEntry)
    (d : String)
    (h : ∃ e ∈ faissStore.getD [] ++ recent, exactCorrectionPred d e = true) :
    (checkExactFeedbackMatch faissStore recent d).isSome = true := by
  obtain ⟨e, he, hpred⟩ := h
  have hnorm : normDesc e.description = normDesc d := by
    have h1 := (Bool.and_eq_true _ _ |>.mp hpred).1
    exact eq_of_beq h1
  cases faissStore with
  | none =>
    simp only [Option.getD, List.nil_append] at he
    exact exactMatchFallback_isSome_of_mem recent d e he hnorm
  | some ms =>
    simp only [Option.getD] at he
    rcases List.mem_append.mp he with hms | hrec
    · have hfind : (check_exact_match ms d).isSome = true := by
        unfold check_exact_match
        exact List.find?_isSome.mpr ⟨e, hms, hpred⟩
      rcases hcm : check_exact_match ms d with _ | m
      · rw [hcm] at hfind; simp at hfind
      · simp [checkExactFeedbackMatch, hcm]
    · rcases hcm : check_exact_match ms d with _ | m
      · simp only [checkExactFeedbackMatch, hcm]
        exact exactMatchFallback_isSome_of_mem recent d e hrec hnorm
      · simp [checkExactFeedbackMatch, hcm]

/-- C1 amended: when the feedback data (the FAISS store or the cached
feedback rows) holds an exact, normalization-equal corrective match for
the description, `classify` with learning enabled returns exactly one
result, with `confidence = 95.0`, `match_type = exact_match`,
`similarity_score = 1.0`, and `source = "feedback_correction"` (the code
labels the exact-feedback source `feedback_correction`, not
`exact_feedback`). -/
theorem C1_amended_exact_feedback_result (cfg : ClassifierConfig)
    (htsData : List HtsEntry) (faissStore : Option (List FeedbackEntry))
    (recent : List FeedbackEntry) (semFind : String → List SemanticMatch)
    (prim : String → Nat → Except Unit (List ClassificationResult))
    (d : String) (top_k : Nat)
    (h : ∃ e ∈ faissStore.getD [] ++ recent, exactCorrectionPred d e = true) :
    ∃ m, checkExactFeedbackMatch faissStore recent d = some m
      ∧ classify cfg htsData faissStore recent semFind prim d top_k true
          = .ok [createExactFeedbackResult htsData m]
      ∧ (createExactFeedbackResult htsData m).confidence = 95
      ∧ (createExactFeedbackResult htsData m).match_type = "exact_match"
      ∧ (createExactFeedbackResult htsData m).source = "feedback_correction"
      ∧ (createExactFeedbackResult htsData m).similarity_score = 1 := by
  have hsome := checkExactFeedbackMatch_isSome faissStore recent d h
  rcases hm : checkExactFeedbackMatch faissStore recent d with _ | m
  · rw [hm] at hsome; simp at hsome
  · refine ⟨m, rfl, ?_, rfl, rfl, rfl, rfl⟩
    have hcore : classifyCore cfg htsData faissStore recent semFind prim d
        top_k true = .ok [createExactFeedbackResult htsData m] := by
      simp only [classifyCore, hm, if_true]
    simp only [classify, hcore]

/-- An exact stored correction for the C1 witness and counterexample. -/
def handbagCorrection : FeedbackEntry :=
  ⟨"leather handbag", "4205.00.80", "4202.21.90", 3⟩

/-- Witness for the amended C1 at a concrete corrective match. -/
theorem C1_witness :
    classify defaultConfig [] (some [handbagCorrection]) []
        (fun _ => []) (fun _ _ => .ok []) "Leather Handbag " 3 true
      = .ok [createExactFeedbackResult [] handbagCorrection] := by
  obtain ⟨m, hm, hcl, _⟩ := C1_amended_exact_feedback_result defaultConfig []
    (some [handbagCorrection]) [] (fun _ => []) (fun _ _ => .ok [])
    "Leather Handbag " 3 ⟨handbagCorrection, by decide, by decide⟩
  have hconc : checkExactFeedbackMatch (some [handbagCorrection]) []
      "Leather Handbag " = some handbagCorrection := by decide
  rw [hconc] at hm
  obtain rfl := Option.some.inj hm
  exact hcl

/-- C1 counterexample: the claim requires `source = exact_feedback`, but on
a description with an exact stored corrective match the single returned
result carries `source = "feedback_correction"`. -/
theorem C1_counterexample :
    exactCorrectionPred "Leather Handbag " handbagCorrection = true
    ∧ classify defaultConfig [] (some [handbagCorrection]) []
        (fun _ => []) (fun _ _ => .ok []) "Leather Handbag " 3 true
        = .ok [createExactFeedbackResult [] handbagCorrection]
    ∧ (createExactFeedbackResult [] handbagCorrection).source
        = "feedback_correction"
    ∧ (createExactFeedbackResult [] handbagCorrection).source
        ≠ "exact_feedback" :=
  ⟨by decide, rfl, rfl, by decide⟩

/-- C2 amended: the FAISS exact matcher returns the *first* corrective
entry in store (insertion) order whose normalized description matches —
the oldest, not the most recent — skipping confirmatory entries; it
returns `None` exactly when no matching corrective entry exists (so
confirmatory entries alone yield `None` on this path).  The classifier's
cache-fallback path, by contrast, returns the most recent matching row
with no corrective filter, so there a confirmatory entry can still
short-circuit. -/
theorem C2_amended_exact_match_order (ms recent : List FeedbackEntry)
    (d : String) :
    (∀ e l₁ l₂, ms = l₁ ++ e :: l₂ → exactCorrectionPred d e = true →
        (∀ x ∈ l₁, exactCorrectionPred d x = false) →
        check_exact_match ms d = some e)
    ∧ (check_exact_match ms d = none
        ↔ ∀ e ∈ ms, exactCorrectionPred d e = false)
    ∧ (∀ e, exactMatchFallback recent d = some e →
        normDesc e.description = normDesc d) := by
  refine ⟨?_, ?_, ?_⟩
  · intro e l₁ l₂ hsplit hpred hl₁
    subst hsplit
    unfold check_exact_match
    rw [List.find?_append]
    have h₁ : List.find? (exactCorrectionPred d) l₁ = none :=
      List.find?_eq_none.mpr (fun x hx => by simp [hl₁ x hx])
    rw [h₁, List.find?_cons_of_pos _ hpred]
    rfl
  · unfold check_exact_match
    rw [List.find?_eq_none]
    constructor
    · intro h e he
      have := h e he
      simpa using this
    · intro h x hx
      simp [h x hx]
  · intro e he
    have hmem := List.mem_of_mem_getLast? he
    have hpred := (List.mem_filter.mp hmem).2
    exact eq_of_beq hpred

/-- An older and a newer corrective entry for the same description. -/
def copperOld : FeedbackEntry := ⟨"copper wire", "7408.11.60", "8544.11.00", 1⟩

/-- The more recent corrective entry for the same description. -/
def copperNew : FeedbackEntry := ⟨"copper wire", "7408.11.60", "7413.00.10", 2⟩

/-- A confirmatory entry (predicted = correct). -/
def steelConfirm : FeedbackEntry :=
  ⟨"steel pipe", "7306.30.50", "7306.30.50", 5⟩

/-- A confirmatory entry sharing the copper-wire description. -/
def copperConfirm : FeedbackEntry :=
  ⟨"copper wire", "7408.11.60", "7408.11.60", 0⟩

/-- C2 counterexample: with two corrective entries for the same
description, the FAISS exact matcher returns the *older* one, not the most
recent; and on the cache-fallback path a store holding only a confirmatory
entry still produces an exact-match short-circuit. -/
theorem C2_counterexample :
    check_exact_match [copperOld, copperNew] "copper wire" = some copperOld
    ∧ exactCorrectionPred "copper wire" copperNew = true
    ∧ copperOld.timestamp < copperNew.timestamp
    ∧ copperOld ≠ copperNew
    ∧ steelConfirm.predicted_code = steelConfirm.correct_code
    ∧ checkExactFeedbackMatch none [steelConfirm] "steel pipe"
        = some steelConfirm := by decide

/-- Witness for the amended C2: a confirmatory entry ahead of a corrective
one is skipped and the corrective entry is returned. -/
theorem C2_witness :
    check_exact_match [copperConfirm, copperNew] "copper wire"
      = some copperNew :=
  (C2_amended_exact_match_order [copperConfirm, copperNew] [] "copper wire").1
    copperNew [copperConfirm] [] rfl (by decide) (by decide)

/-- C7 amended: `classify` never raises, for any description (the empty
description included) and any collaborator behavior: every exception of
the body, including a raising primary classifier, is caught, and a
(possibly empty) result list is returned. -/
theorem C7_amended_classify_never_raises (cfg : ClassifierConfig)
    (htsData : List HtsEntry) (faissStore : Option (List FeedbackEntry))
    (recent : List FeedbackEntry) (semFind : String → List SemanticMatch)
    (prim : String → Nat → Except Unit (List ClassificationResult))
    (d : String) (top_k : Nat) (learn : Bool) :
    ∃ rs, classify cfg htsData faissStore recent semFind prim d top_k learn
      = .ok rs := by
  unfold classify
  cases classifyCore cfg htsData faissStore recent semFind prim d top_k learn with
  | ok rs => exact ⟨rs, rfl⟩
  | error e => exact ⟨primaryFallback prim d top_k, rfl⟩

/-- C7 counterexample: `classify` on the empty description does not raise —
even with a primary classifier that raises, it returns `ok []` rather than
an error, so empty input is not a raising case. -/
theorem C7_counterexample :
    classify defaultConfig [] none [] (fun _ => [])
        (fun _ _ => .error ()) "" 3 true = .ok [] := rfl

/-- A stale cached snapshot entry. -/
def staleEntry : FeedbackEntry :=
  ⟨"aluminum sheet", "7606.12.30", "7607.11.90", 9⟩

/-- C8 counterexample: with a stale snapshot present (TTL expired) and a
failing store read, the feedback-cache read returns the empty sequence,
not the last good snapshot. -/
theorem C8_counterexample :
    getRecentFeedbackData (some [staleEntry]) false none = []
    ∧ ([] : List FeedbackEntry) ≠ [staleEntry] := by decide

/-- C8 amended: on a failing store read, the cached snapshot is returned
only while it is still fresh (within the TTL); once stale — or absent —
the `except` branch returns the empty sequence instead. -/
theorem C8_amended_cache_failure_empty (snapshot : List FeedbackEntry)
    (cache : Option (List FeedbackEntry)) (b : Bool) :
    getRecentFeedbackData (some snapshot) true none = snapshot
    ∧ getRecentFeedbackData cache false none = []
    ∧ getRecentFeedbackData none b none = [] := by
  refine ⟨rfl, ?_, rfl⟩
  cases cache <;> rfl

/-- A confirmatory feedback submission. -/
def boltEntry : FeedbackEntry := ⟨"steel bolt", "7318.15.20", "7318.15.20", 7⟩

/-- C9 counterexample: a confirmatory submission (predicted = correct) is
still inserted into the FAISS index — the insertion is not skipped. -/
theorem C9_counterexample :
    boltEntry.predicted_code = boltEntry.correct_code
    ∧ (addFeedback ⟨[], some []⟩ boltEntry.description
        boltEntry.predicted_code boltEntry.correct_code
        boltEntry.timestamp).faissStore = some [boltEntry]
    ∧ (some [boltEntry] : Option (List FeedbackEntry)) ≠ some [] := by decide

/-- C9 amended: every submission is appended to the feedback store and,
whenever a FAISS index is configured, inserted into it unconditionally —
confirmatory entries included; corrective filtering happens at query time
instead (the exact matcher only ever returns corrective entries). -/
theorem C9_amended_insertion_unconditional (st : FeedbackHandlerState)
    (d p c : String) (t : Nat) :
    (addFeedback st d p c t).store = st.store ++ [⟨d, p, c, t⟩]
    ∧ (∀ ms, st.faissStore = some ms →
        (addFeedback st d p c t).faissStore = some (ms ++ [⟨d, p, c, t⟩]))
    ∧ (∀ ms e, check_exact_match ms d = some e →
        e.predicted_code ≠ e.correct_code) := by
  refine ⟨rfl, ?_, ?_⟩
  · intro ms hms
    simp [addFeedback, hms]
  · intro ms e he
    have hpred := List.find?_some he
    have h₂ := (Bool.and_eq_true _ _ |>.mp hpred).2
    simpa using h₂

/-- Witness for the amended C9: the confirmatory bolt entry is inserted
into a configured (empty) FAISS store. -/
theorem C9_witness :
    (addFeedback ⟨[], some []⟩ "steel bolt" "7318.15.20" "7318.15.20"
        7).faissStore
      = some [⟨"steel bolt", "7318.15.20", "7318.15.20", 7⟩] :=
  (C9_amended_insertion_unconditional ⟨[], some []⟩ "steel bolt" "7318.15.20"
    "7318.15.20" 7).2.1 [] rfl

end
